import Mathlib

/-!
Shallow embedding of the roc backend code-generation core:

* `src/compiler/gen_dev/src/generic64/x86_64.rs` — x86-64 instruction
  encoders, calling-convention register vectors, and the generic stack
  prolog `x86_64_generic_setup_stack`.
* `src/compiler/gen/src/llvm/convert.rs` — layout-to-LLVM-type lowering
  for tagged unions (`block_of_memory` and friends) and `ptr_int`.

Machine bytes are modelled as `Nat` values (each produced byte is < 256 by
construction); byte buffers are `List Nat` and the Rust `Vec::extend` calls
become list appends.  Rust `i32`/`i64`/`u32` arithmetic is modelled on
`Int`/`Nat` with the overflow checks of the source made explicit.  The
`f64` immediate of `mov_freg64_imm64` is modelled by its 64-bit pattern,
since the source only ever takes its little-endian bytes.
-/

namespace Roc

/-- General-purpose registers, with the architectural ordinals of the source enum. -/
inductive X86_64GPReg where
  | RAX | RCX | RDX | RBX | RSP | RBP | RSI | RDI
  | R8 | R9 | R10 | R11 | R12 | R13 | R14 | R15
deriving DecidableEq

/-- The numeric value of the Rust enum discriminant (`reg as u8`). -/
def X86_64GPReg.ord : X86_64GPReg → Nat
  | .RAX => 0 | .RCX => 1 | .RDX => 2 | .RBX => 3
  | .RSP => 4 | .RBP => 5 | .RSI => 6 | .RDI => 7
  | .R8 => 8 | .R9 => 9 | .R10 => 10 | .R11 => 11
  | .R12 => 12 | .R13 => 13 | .R14 => 14 | .R15 => 15

/-- Floating-point registers XMM0..XMM15. -/
inductive X86_64FPReg where
  | XMM0 | XMM1 | XMM2 | XMM3 | XMM4 | XMM5 | XMM6 | XMM7
  | XMM8 | XMM9 | XMM10 | XMM11 | XMM12 | XMM13 | XMM14 | XMM15
deriving DecidableEq, Fintype

/-- The numeric value of the Rust enum discriminant (`reg as u8`). -/
def X86_64FPReg.ord : X86_64FPReg → Nat
  | .XMM0 => 0 | .XMM1 => 1 | .XMM2 => 2 | .XMM3 => 3
  | .XMM4 => 4 | .XMM5 => 5 | .XMM6 => 6 | .XMM7 => 7
  | .XMM8 => 8 | .XMM9 => 9 | .XMM10 => 10 | .XMM11 => 11
  | .XMM12 => 12 | .XMM13 => 13 | .XMM14 => 14 | .XMM15 => 15

/-- The `Relocation::LocalData` record of `crate::Relocation`. -/
inductive Relocation where
  | LocalData (offset : Nat) (data : List Nat)
deriving DecidableEq

/-- Rust's `Result` type (`Ok`/`Err`). -/
inductive Result (α : Type) (ε : Type) where
  | Ok (val : α)
  | Err (err : ε)
deriving DecidableEq

/-- Extract the payload of an `Ok`, with `0` as a junk default for `Err`. -/
def ok_value (r : Result Int String) : Int :=
  match r with
  | .Ok a => a
  | .Err _ => 0

def STACK_ALIGNMENT : Nat := 16

def REX : Nat := 0x40

def REX_W : Nat := REX + 0x8

/-- Line 469: add the REX.B bit when the register needs extension. -/
def add_rm_extension (reg : X86_64GPReg) (byte : Nat) : Nat :=
  if reg.ord > 7 then byte + 1 else byte

/-- Line 478: identical to `add_rm_extension`. -/
def add_opcode_extension (reg : X86_64GPReg) (byte : Nat) : Nat :=
  add_rm_extension reg byte

/-- Line 483: add the REX.R bit when the register needs extension. -/
def add_reg_extension (reg : X86_64GPReg) (byte : Nat) : Nat :=
  if reg.ord > 7 then byte + 4 else byte

/-- The four little-endian bytes of an `i32` value (`imm.to_le_bytes()`). -/
def i32_to_le_bytes (imm : Int) : List Nat :=
  let n := (imm % 4294967296).toNat
  [n % 256, n / 256 % 256, n / 65536 % 256, n / 16777216 % 256]

/-- The four little-endian bytes of a `u32` value. -/
def u32_to_le_bytes (n : Nat) : List Nat :=
  [n % 256, n / 256 % 256, n / 65536 % 256, n / 16777216 % 256]

/-- The eight little-endian bytes of a 64-bit pattern (`imm.to_le_bytes()`). -/
def u64_to_le_bytes (n : Nat) : List Nat :=
  [n % 256, n / 2 ^ 8 % 256, n / 2 ^ 16 % 256, n / 2 ^ 24 % 256,
   n / 2 ^ 32 % 256, n / 2 ^ 40 % 256, n / 2 ^ 48 % 256, n / 2 ^ 56 % 256]

/-- `ADD r/m64,r64` (line 510). -/
def add_reg64_reg64 (buf : List Nat) (dst src : X86_64GPReg) : List Nat :=
  buf ++ [add_reg_extension src (add_rm_extension dst REX_W), 0x01,
          0xC0 + dst.ord % 8 + (src.ord % 8) <<< 3]

/-- `SUB r/m64,r64` (line 520). -/
def sub_reg64_reg64 (buf : List Nat) (dst src : X86_64GPReg) : List Nat :=
  buf ++ [add_reg_extension src (add_rm_extension dst REX_W), 0x29,
          0xC0 + dst.ord % 8 + (src.ord % 8) <<< 3]

/-- `MOV r/m64,r64` (line 564). -/
def mov_reg64_reg64 (buf : List Nat) (dst src : X86_64GPReg) : List Nat :=
  buf ++ [add_reg_extension src (add_rm_extension dst REX_W), 0x89,
          0xC0 + dst.ord % 8 + (src.ord % 8) <<< 3]

/-- `SUB r/m64, imm32` (line 647). -/
def sub_reg64_imm32 (buf : List Nat) (dst : X86_64GPReg) (imm : Int) : List Nat :=
  buf ++ [add_rm_extension dst REX_W, 0x81, 0xE8 + dst.ord % 8] ++ i32_to_le_bytes imm

/-- `PUSH r64` (line 670). -/
def push_reg64 (buf : List Nat) (reg : X86_64GPReg) : List Nat :=
  if reg.ord > 7 then
    buf ++ [add_opcode_extension reg REX, 0x50 + reg.ord % 8]
  else
    buf ++ [0x50 + reg.ord % 8]

/-- `MOVSD xmm, m64` RIP-relative (line 619). -/
def movsd_freg64_rip_offset32 (buf : List Nat) (dst : X86_64FPReg) (offset : Nat) : List Nat :=
  if dst.ord > 7 then
    buf ++ [0xF2, 0x44, 0x0F, 0x10, 0x05 + (dst.ord % 8) <<< 3] ++ u32_to_le_bytes offset
  else
    buf ++ [0xF2, 0x0F, 0x10, 0x05 + (dst.ord % 8) <<< 3] ++ u32_to_le_bytes offset

/-- Composite `add_reg64_reg64_reg64` (lines 368-382). -/
def add_reg64_reg64_reg64 (buf : List Nat) (dst src1 src2 : X86_64GPReg) : List Nat :=
  if dst = src1 then
    add_reg64_reg64 buf dst src2
  else if dst = src2 then
    add_reg64_reg64 buf dst src1
  else
    add_reg64_reg64 (mov_reg64_reg64 buf dst src1) dst src2

/-- Composite `sub_reg64_reg64_reg64` (lines 435-447). -/
def sub_reg64_reg64_reg64 (buf : List Nat) (dst src1 src2 : X86_64GPReg) : List Nat :=
  if dst = src1 then
    sub_reg64_reg64 buf dst src2
  else
    sub_reg64_reg64 (mov_reg64_reg64 buf dst src1) dst src2

/-- Composite `sub_reg64_reg64_imm32` (lines 421-433). -/
def sub_reg64_reg64_imm32 (buf : List Nat) (dst src1 : X86_64GPReg) (imm : Int) : List Nat :=
  if dst = src1 then
    sub_reg64_imm32 buf dst imm
  else
    sub_reg64_imm32 (mov_reg64_reg64 buf dst src1) dst imm

/-- `mov_freg64_imm64` (lines 384-395): emit `MOVSD dst, [RIP+0]` and record a
`LocalData` relocation at `buf.len() - 4` carrying the 8 little-endian bytes of
the `f64` immediate (modelled by its 64-bit pattern `imm`). -/
def mov_freg64_imm64 (buf : List Nat) (relocs : List Relocation) (dst : X86_64FPReg)
    (imm : Nat) : List Nat × List Relocation :=
  let buf := movsd_freg64_rip_offset32 buf dst 0
  (buf, relocs ++ [Relocation.LocalData (buf.length - 4) (u64_to_le_bytes imm)])

/-- `i32::checked_add`: `none` exactly when the mathematical sum leaves the
`i32` range. -/
def i32_checked_add (a b : Int) : Option Int :=
  let s := a + b
  if s < -2147483648 ∨ s > 2147483647 then none else some s

/-- Lines 282-288 of `x86_64_generic_setup_stack`: frame setup
(`PUSH RBP; MOV RBP, RSP` unless a leaf function) followed by one `PUSH` per
saved register, in vector order. -/
def setup_prolog (buf : List Nat) (leaf_function : Bool)
    (saved_regs : List X86_64GPReg) : List Nat :=
  let buf := if !leaf_function then
    mov_reg64_reg64 (push_reg64 buf X86_64GPReg.RBP) X86_64GPReg.RBP X86_64GPReg.RSP
  else buf
  saved_regs.foldl push_reg64 buf

/-- Lines 290-301: the alignment padding.  `full_size` is computed in `i64`
(the source upcasts exactly to avoid overflow, so plain `Int` is faithful);
`alignment` is `0` when `full_size <= 0` and `full_size % 16` otherwise, and
the offset is `0` when the alignment is `0` and `16 - alignment` otherwise. -/
def code_offset (len : Nat) (requested_stack_size : Int) : Int :=
  let full_size : Int := 8 * (len : Int) + requested_stack_size
  let alignment : Int := if full_size ≤ 0 then 0 else full_size % 16
  if alignment = 0 then 0 else 16 - alignment

/-- `x86_64_generic_setup_stack` (lines 275-317), returning the final byte
buffer together with the `Result<i32, String>` value. -/
def x86_64_generic_setup_stack (buf : List Nat) (leaf_function : Bool)
    (saved_regs : List X86_64GPReg) (requested_stack_size : Int) :
    List Nat × Result Int String :=
  match i32_checked_add requested_stack_size (code_offset saved_regs.length requested_stack_size) with
  | some aligned_stack_size =>
    if aligned_stack_size > 0 then
      (sub_reg64_reg64_imm32 (setup_prolog buf leaf_function saved_regs)
        X86_64GPReg.RSP X86_64GPReg.RSP aligned_stack_size,
       .Ok aligned_stack_size)
    else
      (setup_prolog buf leaf_function saved_regs, .Ok 0)
  | none => (setup_prolog buf leaf_function saved_regs, .Err "Ran out of stack space")

/-- The arithmetic component of `x86_64_generic_setup_stack`: its returned
`Result` depends only on the number of saved registers and the requested size. -/
def setup_stack_result (len : Nat) (requested_stack_size : Int) : Result Int String :=
  match i32_checked_add requested_stack_size (code_offset len requested_stack_size) with
  | some aligned_stack_size =>
    if aligned_stack_size > 0 then .Ok aligned_stack_size else .Ok 0
  | none => .Err "Ran out of stack space"

theorem setup_stack_snd (buf : List Nat) (leaf : Bool) (regs : List X86_64GPReg) (req : Int) :
    (x86_64_generic_setup_stack buf leaf regs req).2 = setup_stack_result regs.length req := by
  unfold x86_64_generic_setup_stack setup_stack_result
  cases i32_checked_add req (code_offset regs.length req) with
  | none => rfl
  | some a =>
    by_cases h : a > 0 <;> simp [h]

theorem code_offset_nonneg (len : Nat) (req : Int) : 0 ≤ code_offset len req := by
  unfold code_offset
  dsimp only
  split_ifs <;> omega

theorem code_offset_lt_16 (len : Nat) (req : Int) : code_offset len req < 16 := by
  unfold code_offset
  dsimp only
  split_ifs <;> omega

theorem code_offset_key (len : Nat) (req : Int) :
    (8 * (len : Int) + req + code_offset len req) % 16 = 0 ∨
      (8 * (len : Int) + req ≤ 0 ∧ code_offset len req = 0) := by
  unfold code_offset
  dsimp only
  split_ifs <;> omega

theorem setup_stack_result_aligned (len : Nat) (req : Int)
    (h0 : 0 ≤ req) (h1 : req + 15 ≤ 2147483647) :
    ∃ a, setup_stack_result len req = .Ok a ∧
      (8 * (len : Int) + a) % 16 = 0 ∧ req ≤ a ∧ a - req < 16 := by
  have hoff0 := code_offset_nonneg len req
  have hoff1 := code_offset_lt_16 len req
  have hkey := code_offset_key len req
  unfold setup_stack_result i32_checked_add
  dsimp only
  rw [if_neg (by omega)]
  dsimp only
  by_cases hpos : req + code_offset len req > 0
  · rw [if_pos hpos]
    exact ⟨_, rfl, by omega, by omega, by omega⟩
  · rw [if_neg hpos]
    exact ⟨0, rfl, by omega, by omega, by omega⟩

/-- C1: for every leaf flag, every list of at most 8 saved GP registers and every
requested stack size in {0, 1, 7, 8, 15, 16}, `setup_stack` returns `Ok` with an
aligned stack size such that `8 * |saved_regs| + aligned + (16 if not leaf)` is a
multiple of 16, the aligned size is at least the requested size, and exceeds it
by less than 16. -/
theorem C1_stack_alignment (buf : List Nat) (leaf : Bool) (regs : List X86_64GPReg)
    (req : Int) (hlen : regs.length ≤ 8)
    (hreq : req ∈ ([0, 1, 7, 8, 15, 16] : List Int)) :
    (x86_64_generic_setup_stack buf leaf regs req).2 =
      .Ok (ok_value (x86_64_generic_setup_stack buf leaf regs req).2) ∧
    (8 * (regs.length : Int) + ok_value (x86_64_generic_setup_stack buf leaf regs req).2 +
        (if !leaf then 16 else 0)) % 16 = 0 ∧
    req ≤ ok_value (x86_64_generic_setup_stack buf leaf regs req).2 ∧
    ok_value (x86_64_generic_setup_stack buf leaf regs req).2 - req < 16 := by
  have hb : 0 ≤ req ∧ req + 15 ≤ 2147483647 := by
    simp only [List.mem_cons, List.not_mem_nil, or_false] at hreq
    omega
  obtain ⟨a, ha, hm, hle, hlt⟩ := setup_stack_result_aligned regs.length req hb.1 hb.2
  rw [setup_stack_snd, ha]
  rw [show ok_value (Result.Ok a) = a from rfl]
  refine ⟨rfl, ?_, hle, hlt⟩
  cases leaf <;> simp only [Bool.not_true, Bool.not_false, if_true, if_false] <;> omega

theorem C1_stack_alignment_witness :
    (([X86_64GPReg.RAX] : List X86_64GPReg).length ≤ 8 ∧
      (7 : Int) ∈ ([0, 1, 7, 8, 15, 16] : List Int)) ∧
    ((x86_64_generic_setup_stack [] true [X86_64GPReg.RAX] 7).2 =
      .Ok (ok_value (x86_64_generic_setup_stack [] true [X86_64GPReg.RAX] 7).2) ∧
    (8 * (([X86_64GPReg.RAX] : List X86_64GPReg).length : Int) +
        ok_value (x86_64_generic_setup_stack [] true [X86_64GPReg.RAX] 7).2 +
        (if !true then 16 else 0)) % 16 = 0 ∧
    (7 : Int) ≤ ok_value (x86_64_generic_setup_stack [] true [X86_64GPReg.RAX] 7).2 ∧
    ok_value (x86_64_generic_setup_stack [] true [X86_64GPReg.RAX] 7).2 - 7 < 16) :=
  ⟨⟨by decide, by decide⟩,
    C1_stack_alignment [] true [X86_64GPReg.RAX] 7 (by decide) (by decide)⟩

/-- The alignment padding as the spec describes it: with `full = 8*len + requested`,
`alignment = full % 16` when `full > 0` else `0`, and `offset = (16 - alignment) % 16`. -/
def spec_offset (len : Nat) (requested_stack_size : Int) : Int :=
  let full : Int := 8 * (len : Int) + requested_stack_size
  let alignment : Int := if full > 0 then full % 16 else 0
  (16 - alignment) % 16

theorem code_offset_eq_spec_offset (len : Nat) (req : Int) :
    code_offset len req = spec_offset len req := by
  unfold code_offset spec_offset
  dsimp only
  split_ifs <;> omega

theorem spec_offset_nonneg (len : Nat) (req : Int) : 0 ≤ spec_offset len req := by
  rw [← code_offset_eq_spec_offset]
  exact code_offset_nonneg len req

theorem spec_offset_lt_16 (len : Nat) (req : Int) : spec_offset len req < 16 := by
  rw [← code_offset_eq_spec_offset]
  exact code_offset_lt_16 len req

theorem setup_stack_result_char (len : Nat) (req : Int)
    (hlo : -2147483648 ≤ req) :
    setup_stack_result len req =
      if 2147483647 < req + spec_offset len req then .Err "Ran out of stack space"
      else if req + spec_offset len req > 0 then .Ok (req + spec_offset len req)
      else .Ok 0 := by
  have hoff0 := spec_offset_nonneg len req
  unfold setup_stack_result i32_checked_add
  rw [code_offset_eq_spec_offset]
  dsimp only
  by_cases hov : 2147483647 < req + spec_offset len req
  · rw [if_pos (Or.inr hov), if_pos hov]
  · rw [if_neg (show ¬(req + spec_offset len req < -2147483648 ∨
        req + spec_offset len req > 2147483647) by omega), if_neg hov]

theorem setup_stack_fst_char (buf : List Nat) (leaf : Bool) (regs : List X86_64GPReg)
    (req : Int) (hlo : -2147483648 ≤ req) :
    (x86_64_generic_setup_stack buf leaf regs req).1 =
      if 2147483647 < req + spec_offset regs.length req then setup_prolog buf leaf regs
      else if req + spec_offset regs.length req > 0 then
        sub_reg64_reg64_imm32 (setup_prolog buf leaf regs) X86_64GPReg.RSP X86_64GPReg.RSP
          (req + spec_offset regs.length req)
      else setup_prolog buf leaf regs := by
  have hoff0 := spec_offset_nonneg regs.length req
  unfold x86_64_generic_setup_stack i32_checked_add
  rw [code_offset_eq_spec_offset]
  dsimp only
  by_cases hov : 2147483647 < req + spec_offset regs.length req
  · rw [if_pos (Or.inr hov), if_pos hov]
  · rw [if_neg (show ¬(req + spec_offset regs.length req < -2147483648 ∨
        req + spec_offset regs.length req > 2147483647) by omega), if_neg hov]
    dsimp only
    split_ifs <;> rfl

/-- C2 counterexample: with no saved registers, a leaf function and
`requested_stack_size = -1`, the alignment padding is 0 and no `i32` overflow
occurs, yet `setup_stack` returns `Ok 0`, not `Ok (requested + offset) = Ok (-1)`
as the claim states. -/
theorem C2_counterexample :
    spec_offset 0 (-1) = 0 ∧
    (x86_64_generic_setup_stack [] true [] (-1)).2 = .Ok 0 ∧
    (x86_64_generic_setup_stack [] true [] (-1)).2 ≠ .Ok (-1 + spec_offset 0 (-1)) ∧
    (x86_64_generic_setup_stack [] true [] (-1)).2 ≠ .Err "Ran out of stack space" := by
  refine ⟨by decide, by decide, by decide, by decide⟩

/-- C2 amended: `setup_stack` returns the error string "Ran out of stack space"
iff `requested_stack_size + offset` exceeds `i32::MAX`; otherwise it returns
`Ok (requested + offset)` when that sum is positive (emitting
`SUB RSP, RSP, aligned`) and `Ok 0` with no `SUB` emitted when the sum is zero
or negative. -/
theorem C2_amended (buf : List Nat) (leaf : Bool) (regs : List X86_64GPReg)
    (req : Int) (hlo : -2147483648 ≤ req) :
    ((x86_64_generic_setup_stack buf leaf regs req).2 = .Err "Ran out of stack space" ↔
      2147483647 < req + spec_offset regs.length req) ∧
    (req + spec_offset regs.length req ≤ 2147483647 →
      (x86_64_generic_setup_stack buf leaf regs req).2 =
        .Ok (if req + spec_offset regs.length req > 0
             then req + spec_offset regs.length req else 0) ∧
      (x86_64_generic_setup_stack buf leaf regs req).1 =
        if req + spec_offset regs.length req > 0 then
          sub_reg64_reg64_imm32 (setup_prolog buf leaf regs) X86_64GPReg.RSP X86_64GPReg.RSP
            (req + spec_offset regs.length req)
        else setup_prolog buf leaf regs) := by
  rw [setup_stack_snd, setup_stack_result_char regs.length req hlo,
    setup_stack_fst_char buf leaf regs req hlo]
  constructor
  · split_ifs <;> simp_all
  · intro hle
    rw [if_neg (not_lt.mpr hle), if_neg (not_lt.mpr hle)]
    exact ⟨by split_ifs <;> rfl, rfl⟩

theorem C2_amended_witness :
    (-2147483648 ≤ (5 : Int)) ∧
    (((x86_64_generic_setup_stack [] true [] 5).2 = .Err "Ran out of stack space" ↔
      2147483647 < 5 + spec_offset ([] : List X86_64GPReg).length 5) ∧
    (5 + spec_offset ([] : List X86_64GPReg).length 5 ≤ 2147483647 →
      (x86_64_generic_setup_stack [] true [] 5).2 =
        .Ok (if 5 + spec_offset ([] : List X86_64GPReg).length 5 > 0
             then 5 + spec_offset ([] : List X86_64GPReg).length 5 else 0) ∧
      (x86_64_generic_setup_stack [] true [] 5).1 =
        if 5 + spec_offset ([] : List X86_64GPReg).length 5 > 0 then
          sub_reg64_reg64_imm32 (setup_prolog [] true []) X86_64GPReg.RSP X86_64GPReg.RSP
            (5 + spec_offset ([] : List X86_64GPReg).length 5)
        else setup_prolog [] true [])) :=
  ⟨by decide, C2_amended [] true [] 5 (by decide)⟩

/-- `X86_64SystemV::GP_DEFAULT_FREE_REGS` (lines 65-86). -/
def X86_64SystemV_GP_DEFAULT_FREE_REGS : List X86_64GPReg :=
  [.RBX, .R12, .R13, .R14, .R15,
   .RAX, .RCX, .RDX, .RSI, .RDI, .R8, .R9, .R10, .R11]

/-- `X86_64SystemV::FP_DEFAULT_FREE_REGS` (lines 99-120). -/
def X86_64SystemV_FP_DEFAULT_FREE_REGS : List X86_64FPReg :=
  [.XMM15, .XMM14, .XMM13, .XMM12, .XMM11, .XMM10, .XMM9, .XMM8,
   .XMM7, .XMM6, .XMM5, .XMM4, .XMM3, .XMM2, .XMM1, .XMM0]

/-- `X86_64WindowsFastcall::GP_DEFAULT_FREE_REGS` (lines 170-193). -/
def X86_64WindowsFastcall_GP_DEFAULT_FREE_REGS : List X86_64GPReg :=
  [.RBX, .RSI, .RDI, .R12, .R13, .R14, .R15,
   .RAX, .RCX, .RDX, .R8, .R9, .R10, .R11]

/-- `X86_64WindowsFastcall::FP_DEFAULT_FREE_REGS` (lines 201-222); note that the
source lists `XMM15` twice and `XMM14` not at all. -/
def X86_64WindowsFastcall_FP_DEFAULT_FREE_REGS : List X86_64FPReg :=
  [.XMM15, .XMM15, .XMM13, .XMM12, .XMM11, .XMM10, .XMM9, .XMM8,
   .XMM7, .XMM6, .XMM5, .XMM4, .XMM3, .XMM2, .XMM1, .XMM0]

/-- C5: evaluation of the free-register vectors at the failing input.  The
System V vector does list each of XMM0..XMM15 exactly once and neither RSP nor
RBP appears in either GP free list, but the Windows fastcall FP vector lists
XMM15 twice and omits XMM14, contradicting the claim (a bug the spec itself
flags as such). -/
theorem C5_fp_free_regs_eval :
    X86_64WindowsFastcall_FP_DEFAULT_FREE_REGS.count X86_64FPReg.XMM15 = 2 ∧
    X86_64WindowsFastcall_FP_DEFAULT_FREE_REGS.count X86_64FPReg.XMM14 = 0 ∧
    (∀ r : X86_64FPReg, X86_64SystemV_FP_DEFAULT_FREE_REGS.count r = 1) ∧
    X86_64GPReg.RSP ∉ X86_64SystemV_GP_DEFAULT_FREE_REGS ∧
    X86_64GPReg.RBP ∉ X86_64SystemV_GP_DEFAULT_FREE_REGS ∧
    X86_64GPReg.RSP ∉ X86_64WindowsFastcall_GP_DEFAULT_FREE_REGS ∧
    X86_64GPReg.RBP ∉ X86_64WindowsFastcall_GP_DEFAULT_FREE_REGS := by
  refine ⟨by decide, by decide, by decide, by decide, by decide, by decide, by decide⟩

/-- C6: `sub_reg64_reg64_reg64` takes no commutativity shortcut: when
`dst = src2` and `src1 ≠ src2` it appends exactly the bytes of `MOV dst, src1`
followed by the bytes of `SUB dst, src2`, and in particular not the single
`SUB dst, src2` it would emit when `dst = src1`. -/
theorem C6_sub_no_shortcut (buf : List Nat) (dst src1 src2 : X86_64GPReg)
    (h1 : dst = src2) (h2 : src1 ≠ src2) :
    sub_reg64_reg64_reg64 buf dst src1 src2 =
      buf ++ mov_reg64_reg64 [] dst src1 ++ sub_reg64_reg64 [] dst src2 ∧
    sub_reg64_reg64_reg64 buf dst src1 src2 ≠ sub_reg64_reg64 buf dst src2 := by
  have hne : ¬(dst = src1) := fun h => h2 (h ▸ h1)
  constructor
  · simp [sub_reg64_reg64_reg64, hne, mov_reg64_reg64, sub_reg64_reg64]
  · intro h
    have := congrArg List.length h
    simp [sub_reg64_reg64_reg64, hne, mov_reg64_reg64, sub_reg64_reg64] at this

theorem C6_sub_no_shortcut_witness :
    ((X86_64GPReg.RAX : X86_64GPReg) = X86_64GPReg.RAX ∧
      (X86_64GPReg.RCX : X86_64GPReg) ≠ X86_64GPReg.RAX) ∧
    (sub_reg64_reg64_reg64 [] X86_64GPReg.RAX X86_64GPReg.RCX X86_64GPReg.RAX =
      [] ++ mov_reg64_reg64 [] X86_64GPReg.RAX X86_64GPReg.RCX ++
        sub_reg64_reg64 [] X86_64GPReg.RAX X86_64GPReg.RAX ∧
    sub_reg64_reg64_reg64 [] X86_64GPReg.RAX X86_64GPReg.RCX X86_64GPReg.RAX ≠
      sub_reg64_reg64 [] X86_64GPReg.RAX X86_64GPReg.RAX) :=
  ⟨⟨by decide, by decide⟩,
    C6_sub_no_shortcut [] X86_64GPReg.RAX X86_64GPReg.RCX X86_64GPReg.RAX
      (by decide) (by decide)⟩

/-- C7: when `dst = src2` and `src1 ≠ src2`, `add_reg64_reg64_reg64` emits
exactly the bytes of the primitive `ADD dst, src1`, exploiting the
commutativity of addition. -/
theorem C7_add_commutes (buf : List Nat) (dst src1 src2 : X86_64GPReg)
    (h1 : dst = src2) (h2 : src1 ≠ src2) :
    add_reg64_reg64_reg64 buf dst src1 src2 = add_reg64_reg64 buf dst src1 := by
  have hne : ¬(dst = src1) := fun h => h2 (h ▸ h1)
  subst h1
  simp [add_reg64_reg64_reg64, hne]

theorem C7_add_commutes_witness :
    ((X86_64GPReg.RAX : X86_64GPReg) = X86_64GPReg.RAX ∧
      (X86_64GPReg.R15 : X86_64GPReg) ≠ X86_64GPReg.RAX) ∧
    add_reg64_reg64_reg64 [] X86_64GPReg.RAX X86_64GPReg.R15 X86_64GPReg.RAX =
      add_reg64_reg64 [] X86_64GPReg.RAX X86_64GPReg.R15 :=
  ⟨⟨by decide, by decide⟩,
    C7_add_commutes [] X86_64GPReg.RAX X86_64GPReg.R15 X86_64GPReg.RAX
      (by decide) (by decide)⟩

/-- C8: `mov_freg64_imm64` emits `MOVSD dst, [RIP+0]` and then appends exactly
one `LocalData` relocation whose offset is the buffer length right after that
emission minus 4 (concretely, the initial length plus 9 or 8 bytes of `MOVSD`,
minus 4), with the 8 little-endian bytes of the `f64` immediate as data. -/
theorem C8_reloc (buf : List Nat) (relocs : List Relocation) (dst : X86_64FPReg)
    (imm : Nat) :
    (mov_freg64_imm64 buf relocs dst imm).1 = movsd_freg64_rip_offset32 buf dst 0 ∧
    (movsd_freg64_rip_offset32 buf dst 0).length =
      buf.length + (if dst.ord > 7 then 9 else 8) ∧
    (mov_freg64_imm64 buf relocs dst imm).2 =
      relocs ++ [Relocation.LocalData
        (buf.length + (if dst.ord > 7 then 9 else 8) - 4) (u64_to_le_bytes imm)] ∧
    (u64_to_le_bytes imm).length = 8 := by
  have hlen : (movsd_freg64_rip_offset32 buf dst 0).length =
      buf.length + (if dst.ord > 7 then 9 else 8) := by
    unfold movsd_freg64_rip_offset32 u32_to_le_bytes
    split_ifs <;> simp
  refine ⟨rfl, hlen, ?_, rfl⟩
  unfold mov_freg64_imm64
  dsimp only
  rw [hlen]

/-- Bytes appended by a single `PUSH r64`. -/
def push_bytes (reg : X86_64GPReg) : List Nat :=
  push_reg64 [] reg

theorem push_reg64_append (buf : List Nat) (reg : X86_64GPReg) :
    push_reg64 buf reg = buf ++ push_bytes reg := by
  unfold push_bytes push_reg64
  split_ifs <;> simp

theorem foldl_push_reg64 (regs : List X86_64GPReg) (buf : List Nat) :
    regs.foldl push_reg64 buf = buf ++ (regs.map push_bytes).flatten := by
  induction regs generalizing buf with
  | nil => simp
  | cons r rs ih =>
    simp only [List.foldl_cons, List.map_cons, List.flatten_cons]
    rw [ih, push_reg64_append, List.append_assoc]

theorem setup_prolog_bytes (buf : List Nat) (leaf : Bool) (regs : List X86_64GPReg) :
    setup_prolog buf leaf regs =
      buf ++ (if !leaf then [0x55, 0x48, 0x89, 0xE5] else []) ++
        (regs.map push_bytes).flatten := by
  unfold setup_prolog
  cases leaf <;> simp only [Bool.not_true, Bool.not_false, if_true, if_false] <;>
    rw [foldl_push_reg64] <;> simp [push_reg64, mov_reg64_reg64, add_rm_extension,
      add_reg_extension, REX_W, REX, X86_64GPReg.ord]

/-- C10: `setup_stack` is not atomic on error: whenever it returns the
"Ran out of stack space" error, the byte buffer has nevertheless been extended
with the frame setup bytes (`PUSH RBP; MOV RBP, RSP`, i.e. `55 48 89 E5`, when
not a leaf function) and one `PUSH` per saved register, and those bytes remain
in the returned buffer. -/
theorem C10_error_buffer (buf : List Nat) (leaf : Bool) (regs : List X86_64GPReg)
    (req : Int)
    (h : (x86_64_generic_setup_stack buf leaf regs req).2 = .Err "Ran out of stack space") :
    (x86_64_generic_setup_stack buf leaf regs req).1 =
      buf ++ (if !leaf then [0x55, 0x48, 0x89, 0xE5] else []) ++
        (regs.map push_bytes).flatten := by
  rw [← setup_prolog_bytes]
  unfold x86_64_generic_setup_stack at h ⊢
  cases hc : i32_checked_add req (code_offset regs.length req) with
  | none => rfl
  | some a =>
    rw [hc] at h
    by_cases ha : a > 0 <;> simp [ha] at h

theorem C10_error_buffer_witness :
    (x86_64_generic_setup_stack [] false [X86_64GPReg.RAX] 2147483647).2 =
      .Err "Ran out of stack space" ∧
    (x86_64_generic_setup_stack [] false [X86_64GPReg.RAX] 2147483647).1 =
      [] ++ (if !false then [0x55, 0x48, 0x89, 0xE5] else []) ++
        ([X86_64GPReg.RAX].map push_bytes).flatten :=
  ⟨by decide,
    C10_error_buffer [] false [X86_64GPReg.RAX] 2147483647 (by decide)⟩

/-- The fragment of inkwell's `BasicTypeEnum` that the union lowering and
`ptr_int` build: integer types of a given bit width, pointers (the single
generic address space), fixed-size arrays and (possibly packed) structs. -/
inductive BasicType where
  | IntType (bits : Nat)
  | PointerType (pointee : BasicType)
  | ArrayType (elem : BasicType) (size : Nat)
  | StructType (fields : List BasicType) (packed : Bool)

/-- The `UnionLayout` variants of `roc_mono::layout`, with the field layouts
abstracted to a type `α` (the lowering only ever consults their stack sizes). -/
inductive UnionLayout (α : Type) where
  | Recursive (tags : List (List α))
  | NullableWrapped (nullable_id : Int) (other_tags : List (List α))
  | NullableUnwrapped (nullable_id : Bool) (other_fields : List α)
  | NonNullableUnwrapped (fields : List α)
  | NonRecursive (tags : List (List α))

/-- Lines 196-199 of `block_of_memory_slices`: `total += layout.stack_size(..)`
accumulated in `u32` arithmetic (wrapping), with the stack-size function `sz`
abstracted. -/
def tag_total {α : Type} (sz : α → Nat) (tag : List α) : Nat :=
  tag.foldl (fun total layout => (total + sz layout) % 4294967296) 0

/-- `block_of_memory_help` (lines 218-244): `union_size / 8` i64 words followed,
when `union_size % 8 ≠ 0`, by `union_size % 8` trailing bytes, in a non-packed
struct. -/
def block_of_memory_help (union_size : Nat) : BasicType :=
  let num_i64 := union_size / 8
  let num_i8 := union_size % 8
  let i64_array_type := BasicType.ArrayType (.IntType 64) num_i64
  if num_i8 = 0 then
    .StructType [i64_array_type] false
  else
    .StructType [i64_array_type, BasicType.ArrayType (.IntType 8) num_i8] false

/-- `block_of_memory_slices` (lines 189-205): the union size is the maximum over
the tag field-lists of the (u32) sum of the field stack sizes. -/
def block_of_memory_slices {α : Type} (sz : α → Nat) (layouts : List (List α)) : BasicType :=
  block_of_memory_help (layouts.foldl (fun union_size tag => max union_size (tag_total sz tag)) 0)

/-- Modelled from the spec: `block_of_memory` (lines 207-216) calls
`Layout::stack_size` on the whole union layout, and `Layout::stack_size` lives
in `roc_mono`, which is not under `src/`.  Per the spec (§4.1), the stack size
of a union layout is the maximum over all tag field-lists of the sum of the
stack sizes of that tag's fields. -/
def union_layout_stack_size {α : Type} (sz : α → Nat) (tags : List (List α)) : Nat :=
  tags.foldl (fun union_size tag => max union_size (tag_total sz tag)) 0

/-- The `Union` arm of `basic_type_from_layout` (lines 127-148).  The Rust slice
expression `&other_fields[1..]` panics when `other_fields` is empty, modelled by
`none`. -/
def basic_type_from_union {α : Type} (sz : α → Nat) (variant : UnionLayout α) :
    Option BasicType :=
  match variant with
  | .Recursive tags =>
    some (.PointerType (block_of_memory_slices sz tags))
  | .NullableWrapped _ tags =>
    some (.PointerType (block_of_memory_slices sz tags))
  | .NullableUnwrapped _ other_fields =>
    if other_fields.length < 1 then none
    else some (.PointerType (block_of_memory_slices sz [other_fields.drop 1]))
  | .NonNullableUnwrapped fields =>
    some (.PointerType (block_of_memory_slices sz [fields]))
  | .NonRecursive tags =>
    some (block_of_memory_help (union_layout_stack_size sz tags))

/-- The tag field-lists over which a union variant's block of memory is
computed. -/
def variant_tag_lists {α : Type} : UnionLayout α → List (List α)
  | .Recursive tags => tags
  | .NullableWrapped _ tags => tags
  | .NullableUnwrapped _ other_fields => [other_fields.drop 1]
  | .NonNullableUnwrapped fields => [fields]
  | .NonRecursive tags => tags

/-- True unless the variant is a `NullableUnwrapped` with empty `other_fields`
(the one input on which the lowering panics). -/
def union_panic_free {α : Type} : UnionLayout α → Bool
  | .NullableUnwrapped _ other_fields => !other_fields.isEmpty
  | _ => true

/-- The payload container as the claim words it: a non-packed struct of an
`[i64 x (union_size / 8)]` array followed, exactly when `union_size % 8 ≠ 0`,
by an `[i8 x (union_size % 8)]` array, with `union_size` the maximum over the
tag field-lists of the plain (unwrapped) sum of the field stack sizes. -/
def claimed_block (union_size : Nat) : BasicType :=
  if union_size % 8 ≠ 0 then
    .StructType [.ArrayType (.IntType 64) (union_size / 8),
                 .ArrayType (.IntType 8) (union_size % 8)] false
  else
    .StructType [.ArrayType (.IntType 64) (union_size / 8)] false

/-- The claim's union size: maximum over tag field-lists of the sum of stack
sizes. -/
def claimed_union_size {α : Type} (sz : α → Nat) (tagLists : List (List α)) : Nat :=
  tagLists.foldl (fun u tag => max u ((tag.map sz).sum)) 0

/-- The claim's lowering: the block inline for `NonRecursive`, a pointer to it
for every other variant. -/
def claimed_union_lowering {α : Type} (sz : α → Nat) (v : UnionLayout α) : BasicType :=
  match v with
  | .NonRecursive _ => claimed_block (claimed_union_size sz (variant_tag_lists v))
  | _ => .PointerType (claimed_block (claimed_union_size sz (variant_tag_lists v)))

theorem tag_total_aux {α : Type} (sz : α → Nat) (tag : List α) :
    ∀ acc : Nat, acc + (tag.map sz).sum < 4294967296 →
      tag.foldl (fun total layout => (total + sz layout) % 4294967296) acc =
        acc + (tag.map sz).sum := by
  induction tag with
  | nil =>
    intro acc _
    simp
  | cons x xs ih =>
    intro acc hacc
    simp only [List.map_cons, List.sum_cons] at hacc ⊢
    rw [List.foldl_cons, Nat.mod_eq_of_lt (by omega), ih (acc + sz x) (by omega)]
    omega

theorem tag_total_eq_sum {α : Type} (sz : α → Nat) (tag : List α)
    (h : (tag.map sz).sum < 4294967296) :
    tag_total sz tag = (tag.map sz).sum := by
  unfold tag_total
  simpa using tag_total_aux sz tag 0 (by omega)

theorem foldl_max_congr {α : Type} (f g : List α → Nat) (ls : List (List α))
    (h : ∀ tag ∈ ls, f tag = g tag) :
    ∀ acc : Nat, ls.foldl (fun u tag => max u (f tag)) acc =
      ls.foldl (fun u tag => max u (g tag)) acc := by
  induction ls with
  | nil =>
    intro acc
    rfl
  | cons x xs ih =>
    intro acc
    simp only [List.foldl_cons]
    rw [h x (by simp)]
    exact ih (fun tag htag => h tag (by simp [htag])) _

theorem union_size_eq {α : Type} (sz : α → Nat) (ls : List (List α))
    (h : ∀ tag ∈ ls, (tag.map sz).sum < 4294967296) :
    ls.foldl (fun u tag => max u (tag_total sz tag)) 0 = claimed_union_size sz ls := by
  unfold claimed_union_size
  exact foldl_max_congr (tag_total sz) (fun tag => (tag.map sz).sum) ls
    (fun tag htag => tag_total_eq_sum sz tag (h tag htag)) 0

theorem block_of_memory_help_eq_claimed (s : Nat) :
    block_of_memory_help s = claimed_block s := by
  unfold block_of_memory_help claimed_block
  dsimp only
  by_cases h : s % 8 = 0 <;> simp [h]

/-- C3: for every union layout whose tag field-lists have sizes summing below
2^32 (no `u32` overflow) and which does not hit the `NullableUnwrapped` empty
panic, the lowered payload container is a non-packed struct of an
`[i64 x (union_size / 8)]` array followed, exactly when `union_size % 8 ≠ 0`, by
an `[i8 x (union_size % 8)]` array, where `union_size` is the maximum over the
tag field-lists of the sum of field stack sizes; `NonRecursive` unions get the
struct inline, all other variants a pointer to it. -/
theorem C3_union_lowering {α : Type} (sz : α → Nat) (v : UnionLayout α)
    (hsum : ∀ tag ∈ variant_tag_lists v, (tag.map sz).sum < 4294967296)
    (hpf : union_panic_free v = true) :
    basic_type_from_union sz v = some (claimed_union_lowering sz v) := by
  cases v with
  | Recursive tags =>
    simp only [basic_type_from_union, claimed_union_lowering, block_of_memory_slices,
      variant_tag_lists] at hsum ⊢
    rw [union_size_eq sz tags hsum, block_of_memory_help_eq_claimed]
  | NullableWrapped i tags =>
    simp only [basic_type_from_union, claimed_union_lowering, block_of_memory_slices,
      variant_tag_lists] at hsum ⊢
    rw [union_size_eq sz tags hsum, block_of_memory_help_eq_claimed]
  | NullableUnwrapped i other_fields =>
    simp only [union_panic_free, Bool.not_eq_true', List.isEmpty_eq_false] at hpf
    simp only [basic_type_from_union, claimed_union_lowering, block_of_memory_slices,
      variant_tag_lists] at hsum ⊢
    rw [if_neg (by simp [Nat.lt_one_iff, List.length_eq_zero, hpf])]
    rw [union_size_eq sz [other_fields.drop 1] hsum, block_of_memory_help_eq_claimed]
  | NonNullableUnwrapped fields =>
    simp only [basic_type_from_union, claimed_union_lowering, block_of_memory_slices,
      variant_tag_lists] at hsum ⊢
    rw [union_size_eq sz [fields] hsum, block_of_memory_help_eq_claimed]
  | NonRecursive tags =>
    simp only [basic_type_from_union, claimed_union_lowering, union_layout_stack_size,
      variant_tag_lists] at hsum ⊢
    rw [union_size_eq sz tags hsum, block_of_memory_help_eq_claimed]

theorem C3_union_lowering_witness :
    ((∀ tag ∈ variant_tag_lists (UnionLayout.NullableUnwrapped true ([3, 5] : List Nat)),
        (tag.map (fun n : Nat => n)).sum < 4294967296) ∧
      union_panic_free (UnionLayout.NullableUnwrapped true ([3, 5] : List Nat)) = true) ∧
    basic_type_from_union (fun n : Nat => n)
        (UnionLayout.NullableUnwrapped true ([3, 5] : List Nat)) =
      some (claimed_union_lowering (fun n : Nat => n)
        (UnionLayout.NullableUnwrapped true ([3, 5] : List Nat))) :=
  ⟨⟨by decide, by decide⟩,
    C3_union_lowering (fun n : Nat => n)
      (UnionLayout.NullableUnwrapped true ([3, 5] : List Nat)) (by decide) (by decide)⟩

/-- C9: lowering a `NullableUnwrapped` union is panic-free exactly when
`other_fields` is non-empty (the source takes the slice `other_fields[1..]`,
which panics on an empty slice); on a non-empty `other_fields` the block of
memory is computed over the fields after the first and a pointer to it is
returned. -/
theorem C9_nullable_unwrapped {α : Type} (sz : α → Nat) (i : Bool) (fs : List α) :
    (basic_type_from_union sz (UnionLayout.NullableUnwrapped i fs) = none ↔ fs = []) ∧
    (fs ≠ [] →
      basic_type_from_union sz (UnionLayout.NullableUnwrapped i fs) =
        some (.PointerType (block_of_memory_slices sz [fs.drop 1]))) := by
  constructor
  · simp only [basic_type_from_union]
    split_ifs with h
    · simp only [Nat.lt_one_iff, List.length_eq_zero] at h
      simp [h]
    · simp only [Nat.lt_one_iff, List.length_eq_zero] at h
      simp [h]
  · intro hne
    simp only [basic_type_from_union]
    rw [if_neg (by simp [Nat.lt_one_iff, List.length_eq_zero, hne])]

theorem C9_nullable_unwrapped_witness :
    (([3, 5] : List Nat) ≠ []) ∧
    ((basic_type_from_union (fun n : Nat => n)
        (UnionLayout.NullableUnwrapped false ([3, 5] : List Nat)) = none ↔
      ([3, 5] : List Nat) = []) ∧
    (([3, 5] : List Nat) ≠ [] →
      basic_type_from_union (fun n : Nat => n)
          (UnionLayout.NullableUnwrapped false ([3, 5] : List Nat)) =
        some (.PointerType (block_of_memory_slices (fun n : Nat => n)
          [([3, 5] : List Nat).drop 1])))) :=
  ⟨by decide, C9_nullable_unwrapped (fun n : Nat => n) false ([3, 5] : List Nat)⟩

/-- `ptr_int` (lines 246-257): the pointer-width table, with the `panic!` arm
modelled as an `Err` carrying the formatted panic message (`ptr_bytes * 8` is
`u32` arithmetic, hence the modulus). -/
def ptr_int (ptr_bytes : Nat) : Result BasicType String :=
  match ptr_bytes with
  | 1 => .Ok (.IntType 8)
  | 2 => .Ok (.IntType 16)
  | 4 => .Ok (.IntType 32)
  | 8 => .Ok (.IntType 64)
  | _ => .Err ("Invalid target: Roc does't support compiling to " ++
      toString (ptr_bytes * 8 % 4294967296) ++ "-bit systems.")

/-- C4 counterexample: at pointer width 3 the code's panic message is
"Invalid target: Roc does't support compiling to 24-bit systems." and not the
claim's "Invalid target: does not support compiling to 24-bit systems.". -/
theorem C4_counterexample :
    ptr_int 3 = .Err "Invalid target: Roc does't support compiling to 24-bit systems." ∧
    ptr_int 3 ≠ .Err "Invalid target: does not support compiling to 24-bit systems." := by
  constructor
  · rfl
  · intro h
    rw [show ptr_int 3 =
      .Err "Invalid target: Roc does't support compiling to 24-bit systems." from rfl] at h
    injection h with h'
    exact absurd h' (by decide)

/-- C4 amended: for widths 1, 2, 4, 8 `ptr_int` returns i8, i16, i32, i64
respectively; for every other `u32` width it fails fatally with exactly the
message "Invalid target: Roc does't support compiling to N-bit systems." where
N = (width * 8) mod 2^32. -/
theorem C4_amended (w : Nat) (hw : w < 4294967296) :
    (w = 1 → ptr_int w = .Ok (.IntType 8)) ∧
    (w = 2 → ptr_int w = .Ok (.IntType 16)) ∧
    (w = 4 → ptr_int w = .Ok (.IntType 32)) ∧
    (w = 8 → ptr_int w = .Ok (.IntType 64)) ∧
    (w ≠ 1 → w ≠ 2 → w ≠ 4 → w ≠ 8 →
      ptr_int w = .Err ("Invalid target: Roc does't support compiling to " ++
        toString (w * 8 % 4294967296) ++ "-bit systems.")) := by
  refine ⟨fun h => by subst h; rfl, fun h => by subst h; rfl,
    fun h => by subst h; rfl, fun h => by subst h; rfl, ?_⟩
  intro h1 h2 h4 h8
  match w, h1, h2, h4, h8 with
  | 0, _, _, _, _ => rfl
  | 3, _, _, _, _ => rfl
  | 5, _, _, _, _ => rfl
  | 6, _, _, _, _ => rfl
  | 7, _, _, _, _ => rfl
  | (n + 9), _, _, _, _ => rfl

theorem C4_amended_witness :
    (3 : Nat) < 4294967296 ∧
    (((3 : Nat) = 1 → ptr_int 3 = .Ok (.IntType 8)) ∧
    ((3 : Nat) = 2 → ptr_int 3 = .Ok (.IntType 16)) ∧
    ((3 : Nat) = 4 → ptr_int 3 = .Ok (.IntType 32)) ∧
    ((3 : Nat) = 8 → ptr_int 3 = .Ok (.IntType 64)) ∧
    ((3 : Nat) ≠ 1 → (3 : Nat) ≠ 2 → (3 : Nat) ≠ 4 → (3 : Nat) ≠ 8 →
      ptr_int 3 = .Err ("Invalid target: Roc does't support compiling to " ++
        toString ((3 : Nat) * 8 % 4294967296) ++ "-bit systems."))) :=
  ⟨by decide, C4_amended 3 (by decide)⟩

end Roc
